import Mathlib

/-!
Shallow embedding of `src/ahu_model.py`: six stateless regression formulas
for an air-handling unit (damper position, fan speed, fan power, chilled-water
valve position, pump speed, pump power).  All formulas are polynomial or
power-law expressions with fixed coefficients; we model the polynomial ones
over `ℚ` (their coefficients are exact decimal literals) and the power-law
fan-speed formula over `ℝ` (its exponent 0.3412 is non-integral).
-/

namespace AhuModel

/-- `damper_pos_from_static(static, load_adj=0)`:
cubic polynomial in `static` with coefficients `[-0.221, 1.1788, -2.1134, 1.6964]`
(highest degree first), plus `load_adj`. -/
def damper_pos_from_static (static load_adj : ℚ) : ℚ :=
  (-0.221) * static ^ 3 + 1.1788 * static ^ 2 + (-2.1134) * static + 1.6964 + load_adj

/-- Default value of `load_adj` in `damper_pos_from_static`. -/
def damper_pos_default (static : ℚ) : ℚ :=
  damper_pos_from_static static 0

/-- `fan_speed_from_static(static, fan_adj=1)`:
power law `28.345 * static ** 0.3412 * fan_adj`, divided by 60. -/
noncomputable def fan_speed_from_static (static fan_adj : ℝ) : ℝ :=
  28.345 * static ^ (0.3412 : ℝ) * fan_adj / 60

/-- Default value of `fan_adj` in `fan_speed_from_static`. -/
noncomputable def fan_speed_default (static : ℝ) : ℝ :=
  fan_speed_from_static static 1

/-- `fan_power_from_speed(freq, hp=15, eff=0.9)`:
cubic part-load ratio `1.0608*f^3 - 0.1222*f^2 + 0.0684*f + 0.0022`,
scaled by `hp * 0.7457 / eff`. -/
def fan_power_from_speed (freq hp eff : ℚ) : ℚ :=
  (1.0608 * freq ^ 3 + (-0.1222) * freq ^ 2 + 0.0684 * freq + 0.0022) * hp * 0.7457 / eff

/-- `fan_power_from_speed` with its default arguments `hp=15`, `eff=0.9`. -/
def fan_power_default (freq : ℚ) : ℚ :=
  fan_power_from_speed freq 15 0.9

/-- The unclamped quadratic computed inside `valve_pos_from_Tsa_static`:
`0.0008*T_sa^2 - 0.1217*T_sa + 4.8238 - (static - 1.5)*0.2`. -/
def valve_pos_unclamped (T_sa static : ℚ) : ℚ :=
  0.0008 * T_sa ^ 2 + (-0.1217) * T_sa + 4.8238 + (-(static - 1.5) * 0.2)

/-- `valve_pos_from_Tsa_static(T_sa, static)`:
the unclamped quadratic, truncated to 1 when it exceeds 1 (no lower clamp). -/
def valve_pos_from_Tsa_static (T_sa static : ℚ) : ℚ :=
  if valve_pos_unclamped T_sa static > 1 then 1 else valve_pos_unclamped T_sa static

/-- `pump_speed_from_Tsa_static(T_sa, static)`:
if `T_sa ≥ 60 - (static-1.5)*10` return the base speed 0.6, else evaluate
`0.0015*t^2 - 0.1845*t + 6.2675` at `t = T_sa + (static-1.5)*10`. -/
def pump_speed_from_Tsa_static (T_sa static : ℚ) : ℚ :=
  if T_sa ≥ 60 - (static - 1.5) * 10 then 0.6
  else
    0.0015 * (T_sa + (static - 1.5) * 10) ^ 2 +
      (-0.1845) * (T_sa + (static - 1.5) * 10) + 6.2675

/-- `pump_power_from_speed(freq, hp=25, eff=0.9)`:
same cubic part-load curve and 0.7457 scale as `fan_power_from_speed`. -/
def pump_power_from_speed (freq hp eff : ℚ) : ℚ :=
  (1.0608 * freq ^ 3 + (-0.1222) * freq ^ 2 + 0.0684 * freq + 0.0022) * hp * 0.7457 / eff

/-- `pump_power_from_speed` with its default arguments `hp=25`, `eff=0.9`. -/
def pump_power_default (freq : ℚ) : ℚ :=
  pump_power_from_speed freq 25 0.9

/-- C1: whenever the unclamped quadratic exceeds 1, `valve_pos_from_Tsa_static`
returns exactly 1; whenever it is ≤ 1 (negative values included), the unclamped
value is returned unmodified — there is no lower clamp. -/
theorem valve_pos_clamp_spec (T_sa static : ℚ) :
    (1 < valve_pos_unclamped T_sa static →
      valve_pos_from_Tsa_static T_sa static = 1) ∧
    (valve_pos_unclamped T_sa static ≤ 1 →
      valve_pos_from_Tsa_static T_sa static = valve_pos_unclamped T_sa static) := by
  unfold valve_pos_from_Tsa_static
  constructor
  · intro h
    simp [h]
  · intro h
    simp [not_lt.mpr h]

/-- Witness for C1: at `(T_sa, static) = (0, 1.5)` the unclamped value is
4.8238 > 1 and the function returns 1; at `(55, 1.5)` it is 0.5503 ≤ 1 and is
returned unmodified. -/
theorem valve_pos_clamp_spec_witness :
    valve_pos_from_Tsa_static 0 1.5 = 1 ∧
    valve_pos_from_Tsa_static 55 1.5 = valve_pos_unclamped 55 1.5 :=
  ⟨(valve_pos_clamp_spec 0 1.5).1 (by norm_num [valve_pos_unclamped]),
   (valve_pos_clamp_spec 55 1.5).2 (by norm_num [valve_pos_unclamped])⟩

/-- C2: if `T_sa ≥ 60 - (static-1.5)*10` (equality included), `pump_speed`
returns exactly 0.6; otherwise it returns the quadratic
`0.0015*t^2 - 0.1845*t + 6.2675` at `t = T_sa + (static-1.5)*10`, unclamped. -/
theorem pump_speed_branch_spec (T_sa static : ℚ) :
    (T_sa ≥ 60 - (static - 1.5) * 10 →
      pump_speed_from_Tsa_static T_sa static = 0.6) ∧
    (T_sa < 60 - (static - 1.5) * 10 →
      pump_speed_from_Tsa_static T_sa static =
        0.0015 * (T_sa + (static - 1.5) * 10) ^ 2 +
          (-0.1845) * (T_sa + (static - 1.5) * 10) + 6.2675) := by
  unfold pump_speed_from_Tsa_static
  constructor
  · intro h
    simp [h]
  · intro h
    simp [not_le.mpr h]

/-- Witness for C2: at `static = 1.5` the adjusted threshold is 60; the input
`(60, 1.5)` lands on the inclusive base-speed branch, and `(55, 1.5)` lands on
the quadratic branch (whose value at 55 is 1.66). -/
theorem pump_speed_branch_spec_witness :
    pump_speed_from_Tsa_static 60 1.5 = 0.6 ∧
    pump_speed_from_Tsa_static 55 1.5 =
      0.0015 * ((55 : ℚ) + (1.5 - 1.5) * 10) ^ 2 +
        (-0.1845) * ((55 : ℚ) + (1.5 - 1.5) * 10) + 6.2675 :=
  ⟨(pump_speed_branch_spec 60 1.5).1 (by norm_num),
   (pump_speed_branch_spec 55 1.5).2 (by norm_num)⟩

/-- C3 counterexample: `damper_pos_from_static(1.0, 0)` does not equal 0.3388;
the sum `-0.221 + 1.1788 - 2.1134 + 1.6964` is 0.5408, not 0.3388 as the spec
computes. -/
theorem damper_pos_at_one_ne_spec_value :
    ¬ damper_pos_from_static 1 0 = 0.3388 := by
  norm_num [damper_pos_from_static]

/-- C3 amended: `damper_pos_from_static(1.0, 0)` equals the coefficient sum
`-0.221 + 1.1788 - 2.1134 + 1.6964`, which is 0.5408. -/
theorem damper_pos_at_one :
    damper_pos_from_static 1 0 = -0.221 + 1.1788 - 2.1134 + 1.6964 ∧
    damper_pos_from_static 1 0 = 0.5408 := by
  constructor <;> norm_num [damper_pos_from_static]

/-- C4 counterexample: `valve_pos_from_Tsa_static(60, 1.5)` does not return 1;
the unclamped value `0.0008*3600 - 0.1217*60 + 4.8238` is 0.4018, not 1.4018,
so no clamping occurs. -/
theorem valve_pos_at_sixty_not_clamped :
    ¬ valve_pos_from_Tsa_static 60 1.5 = 1 := by
  norm_num [valve_pos_from_Tsa_static, valve_pos_unclamped]

/-- C4 amended: at `(60, 1.5)` the unclamped value is
`0.0008*3600 - 0.1217*60 + 4.8238 = 0.4018 ≤ 1` and `valve_pos_from_Tsa_static`
returns it unmodified. -/
theorem valve_pos_at_sixty :
    valve_pos_unclamped 60 1.5 = 0.0008 * 3600 + (-0.1217) * 60 + 4.8238 ∧
    valve_pos_unclamped 60 1.5 = 0.4018 ∧
    valve_pos_from_Tsa_static 60 1.5 = 0.4018 := by
  refine ⟨?_, ?_, ?_⟩ <;> norm_num [valve_pos_from_Tsa_static, valve_pos_unclamped]

/-- The part-load cubic `1.0608 r^3 - 0.1222 r^2 + 0.0684 r` is non-decreasing
for non-negative speed ratios: its derivative `3.1824 r^2 - 0.2444 r + 0.0684`
has negative discriminant, so the difference factors into `(r2 - r1)` times a
positive-definite quadratic form. -/
lemma partload_cubic_mono (r1 r2 : ℚ) (h0 : 0 ≤ r1) (h12 : r1 ≤ r2) :
    1.0608 * r1 ^ 3 + (-0.1222) * r1 ^ 2 + 0.0684 * r1 ≤
      1.0608 * r2 ^ 3 + (-0.1222) * r2 ^ 2 + 0.0684 * r2 := by
  have hd : 0 ≤ r2 - r1 := sub_nonneg.mpr h12
  nlinarith [mul_nonneg hd (sq_nonneg (r1 + r2 - 611 / 7956)),
    mul_nonneg hd (sq_nonneg (r1 - r2)), hd, sq_nonneg (r1 - r2)]

/-- C5: for positive static pressure, `fan_speed_from_static` equals
`28.345 * static^0.3412 * fan_adj` divided by 60; in particular
`fan_speed_from_static 1 1 = 28.345 / 60`. -/
theorem fan_speed_spec (static fan_adj : ℝ) (h : 0 < static) :
    fan_speed_from_static static fan_adj =
      28.345 * static ^ (0.3412 : ℝ) * fan_adj / 60 ∧
    fan_speed_from_static 1 1 = 28.345 / 60 := by
  refine ⟨rfl, ?_⟩
  unfold fan_speed_from_static
  rw [Real.one_rpow]
  ring

/-- Witness for C5: the theorem applied at `static = 1 > 0`, `fan_adj = 1`. -/
theorem fan_speed_spec_witness :
    fan_speed_from_static 1 1 = 28.345 * (1 : ℝ) ^ (0.3412 : ℝ) * 1 / 60 ∧
    fan_speed_from_static 1 1 = 28.345 / 60 :=
  fan_speed_spec 1 1 (by norm_num)

/-- C6: with rated power 1 and efficiency 1, `fan_power_from_speed` and
`pump_power_from_speed` agree at every speed ratio: the two functions share
the same cubic part-load curve and 0.7457 scale factor. -/
theorem fan_pump_power_same_curve (r : ℚ) :
    fan_power_from_speed r 1 1 = pump_power_from_speed r 1 1 := rfl

/-- C7: the single-argument forms carry the source defaults: `fan_power`
defaults to `hp = 15`, `eff = 0.9`, and `pump_power` to `hp = 25`, `eff = 0.9`. -/
theorem power_default_args (x : ℚ) :
    fan_power_default x = fan_power_from_speed x 15 0.9 ∧
    pump_power_default x = pump_power_from_speed x 25 0.9 :=
  ⟨rfl, rfl⟩

/-- C9: `pump_speed_from_Tsa_static` is discontinuous at its branch boundary:
at `T_sa` equal to the adjusted threshold `60 - (static-1.5)*10`, the adjusted
temperature is exactly 60, where the quadratic branch would give
`0.0015*60^2 - 0.1845*60 + 6.2675 = 0.5975`, yet the function returns 0.6 —
a jump of 0.0025. -/
theorem pump_speed_boundary_jump (static : ℚ) :
    pump_speed_from_Tsa_static (60 - (static - 1.5) * 10) static = 0.6 ∧
    (60 - (static - 1.5) * 10) + (static - 1.5) * 10 = 60 ∧
    (0.0015 * (60 : ℚ) ^ 2 + (-0.1845) * 60 + 6.2675) = 0.5975 ∧
    (0.6 : ℚ) - 0.5975 = 0.0025 := by
  refine ⟨?_, by ring, by norm_num, by norm_num⟩
  unfold pump_speed_from_Tsa_static
  simp

/-- C10: at zero speed the power formulas do not vanish: for any positive
rated power and efficiency, both return `0.0022 * hp * 0.7457 / eff`, which is
strictly positive. -/
theorem power_at_zero_speed (hp eff : ℚ) (hhp : 0 < hp) (heff : 0 < eff) :
    fan_power_from_speed 0 hp eff = 0.0022 * hp * 0.7457 / eff ∧
    pump_power_from_speed 0 hp eff = 0.0022 * hp * 0.7457 / eff ∧
    0 < fan_power_from_speed 0 hp eff ∧
    0 < pump_power_from_speed 0 hp eff := by
  have hval : (1.0608 * (0 : ℚ) ^ 3 + (-0.1222) * 0 ^ 2 + 0.0684 * 0 + 0.0022) * hp * 0.7457 / eff
      = 0.0022 * hp * 0.7457 / eff := by ring
  have hpos : 0 < 0.0022 * hp * 0.7457 / eff := by positivity
  unfold fan_power_from_speed pump_power_from_speed
  exact ⟨hval, hval, hval ▸ hpos, hval ▸ hpos⟩

/-- Witness for C10: the theorem applied at the source defaults
`hp = 15 > 0`, `eff = 0.9 > 0`. -/
theorem power_at_zero_speed_witness :
    fan_power_from_speed 0 15 0.9 = 0.0022 * 15 * 0.7457 / 0.9 ∧
    pump_power_from_speed 0 15 0.9 = 0.0022 * 15 * 0.7457 / 0.9 ∧
    0 < fan_power_from_speed 0 15 0.9 ∧
    0 < pump_power_from_speed 0 15 0.9 :=
  power_at_zero_speed 15 0.9 (by norm_num) (by norm_num)

/-- C8: with the default rated power and efficiency, both power formulas are
non-decreasing in the speed ratio over [0, 1]. -/
theorem power_monotone_on_unit (r1 r2 : ℚ) (h0 : 0 ≤ r1) (h12 : r1 ≤ r2)
    (h1 : r2 ≤ 1) :
    fan_power_default r1 ≤ fan_power_default r2 ∧
    pump_power_default r1 ≤ pump_power_default r2 := by
  have hc := partload_cubic_mono r1 r2 h0 h12
  unfold fan_power_default pump_power_default fan_power_from_speed pump_power_from_speed
  constructor <;> · rw [div_le_div_iff_of_pos_right (by norm_num)]; nlinarith [hc]

/-- Witness for C8: the theorem applied at `r1 = 0 ≤ r2 = 1`. -/
theorem power_monotone_on_unit_witness :
    fan_power_default 0 ≤ fan_power_default 1 ∧
    pump_power_default 0 ≤ pump_power_default 1 :=
  power_monotone_on_unit 0 1 (by norm_num) (by norm_num) (by norm_num)

end AhuModel
